import Mathlib

/-!
Verification of the pipeline stage hand-off contract implemented by the
example stage modules (`deliver.example.py`, `deploy.example.py`,
`validate.example.py`, `test.example.py`) of the `cicd-local` repository.

The Python stage functions are shallowly embedded as Lean functions:

* `dagger.File` values are modelled by `DaggerFile` (a file name plus its
  textual contents); `dagger.Directory` and `dagger.Secret` are never
  inspected by the stages, so they are modelled by inert structures.
* `datetime.now()` is modelled by passing the wall-clock reading taken
  during the stage invocation as an explicit `DateTime` argument; Python's
  `datetime.isoformat` is reproduced as `DateTime.isoformat`.
* `json.loads` / `json.dumps(..., indent=2)` from the Python standard
  library are modelled by `jsonLoads` / `jsonDumps` over the `Json` type
  below.  `jsonDumps` reproduces the default `ensure_ascii=True` encoder
  (short escapes, `\uXXXX` escapes and surrogate pairs for astral
  characters).  JSON numbers are modelled as integers only: fractional
  literals decode to Python floats, which are outside this embedding; no
  context produced by the repository contains a number, and an input
  rejected for this reason still makes the consuming stage fail, exactly
  as the float-decoding path does in Python (`.get` on a non-`dict`).
* Python exceptions are modelled by `Except PyError`; a raised exception
  aborts the stage, so an erroring stage produces no output file.
* Containers spawned with `dag.container().with_exec(...)` are modelled by
  recording the executed argv list and computing the `stdout` of the only
  command the stages run (`echo`).
-/

/-- Error kinds a stage body can raise.  `jsonDecodeError` models
`json.JSONDecodeError` raised by `json.loads`; `attributeError` models the
`AttributeError` raised when `.get` is called on a decoded value that is
not a `dict`; `nameError` models `NameError` for an unbound identifier. -/
inductive PyError where
  | jsonDecodeError
  | attributeError (attr : String)
  | nameError (name : String)
deriving DecidableEq

/-- Both ways an upstream context artifact can be rejected — contents that
do not decode (`jsonDecodeError`) and contents that decode to a non-object
(`attributeError` from `.get`) — are `MalformedContext` failures in the
specification's error taxonomy. -/
def PyError.isMalformedContext : PyError → Bool
  | .jsonDecodeError => true
  | .attributeError _ => true
  | .nameError _ => false

/-- A `dagger.File`: an artifact handle carrying a file name and the
file's textual contents (the stages only ever call `.contents()`). -/
structure DaggerFile where
  name : String
  contents : String
deriving DecidableEq

/-- A `dagger.Directory`; the stage bodies never inspect it. -/
structure Directory where
  mk ::
deriving DecidableEq

/-- A `dagger.Secret`; the stage bodies never inspect it. -/
structure Secret where
  mk ::
deriving DecidableEq

/-- A wall-clock reading, mirroring the fields of a Python `datetime`. -/
structure DateTime where
  year : Nat
  month : Nat
  day : Nat
  hour : Nat
  minute : Nat
  second : Nat
  microsecond : Nat
deriving DecidableEq

/-- Field ranges enforced by the `datetime` constructor
(`MINYEAR = 1`, `MAXYEAR = 9999`). -/
def DateTime.Valid (d : DateTime) : Prop :=
  1 ≤ d.year ∧ d.year ≤ 9999 ∧
  1 ≤ d.month ∧ d.month ≤ 12 ∧
  1 ≤ d.day ∧ d.day ≤ 31 ∧
  d.hour ≤ 23 ∧ d.minute ≤ 59 ∧ d.second ≤ 59 ∧ d.microsecond ≤ 999999

instance (d : DateTime) : Decidable d.Valid := by
  unfold DateTime.Valid; infer_instance

/-- Boolean form of `DateTime.Valid`, usable inside parsers. -/
def DateTime.validB (d : DateTime) : Bool := decide d.Valid

/-- Mixed-radix key; on valid datetimes `key` is monotone in the
field-lexicographic order Python uses to compare `datetime` values, so
`d₁.key ≤ d₂.key` states that `d₁` is no later than `d₂`. -/
def DateTime.key (d : DateTime) : Nat :=
  (((((d.year * 13 + d.month) * 32 + d.day) * 24 + d.hour) * 60 + d.minute) * 60
      + d.second) * 1000000 + d.microsecond

/-- The decimal digit character for `d < 10`. -/
def decDigitChar (d : Nat) : Char := Char.ofNat (48 + d)

/-- Big-endian, zero-padded decimal digits of `n % 10 ^ w`, width `w`;
models Python's `format(n, "0wd")` for in-range `n`. -/
def padDigits : Nat → Nat → List Char
  | 0, _ => []
  | w + 1, n => decDigitChar (n / 10 ^ w % 10) :: padDigits w n

/-- Reads exactly `w` decimal digits, folding them onto `acc`. -/
def readDigits : Nat → Nat → List Char → Option (Nat × List Char)
  | 0, acc, l => some (acc, l)
  | _ + 1, _, [] => none
  | w + 1, acc, c :: l =>
    if c.isDigit then readDigits w (acc * 10 + (c.toNat - 48)) l else none

/-- Expects the character `c` at the head of the input. -/
def expectChar (c : Char) : List Char → Option (List Char)
  | [] => none
  | c' :: l => if c' = c then some l else none

/-- Python's `datetime.isoformat()`: `YYYY-MM-DDTHH:MM:SS`, with a
`.ffffff` microsecond suffix exactly when `microsecond` is nonzero. -/
def DateTime.isoformat (d : DateTime) : String :=
  String.mk
    (padDigits 4 d.year ++ '-' :: padDigits 2 d.month ++ '-' :: padDigits 2 d.day
      ++ 'T' :: padDigits 2 d.hour ++ ':' :: padDigits 2 d.minute
      ++ ':' :: padDigits 2 d.second
      ++ (if d.microsecond = 0 then [] else '.' :: padDigits 6 d.microsecond))

/-- Parses (and thereby validates) an ISO-8601 timestamp in the exact
shape `datetime.isoformat` produces, range checks included. -/
def parseIsoTimestamp (s : String) : Option DateTime :=
  match readDigits 4 0 s.data with
  | none => none
  | some (y, l1) =>
  match expectChar '-' l1 with
  | none => none
  | some l2 =>
  match readDigits 2 0 l2 with
  | none => none
  | some (mo, l3) =>
  match expectChar '-' l3 with
  | none => none
  | some l4 =>
  match readDigits 2 0 l4 with
  | none => none
  | some (da, l5) =>
  match expectChar 'T' l5 with
  | none => none
  | some l6 =>
  match readDigits 2 0 l6 with
  | none => none
  | some (h, l7) =>
  match expectChar ':' l7 with
  | none => none
  | some l8 =>
  match readDigits 2 0 l8 with
  | none => none
  | some (mi, l9) =>
  match expectChar ':' l9 with
  | none => none
  | some l10 =>
  match readDigits 2 0 l10 with
  | none => none
  | some (sec, l11) =>
  match l11 with
  | [] =>
    let d : DateTime := ⟨y, mo, da, h, mi, sec, 0⟩
    if d.validB then some d else none
  | '.' :: l12 =>
    (match readDigits 6 0 l12 with
     | none => none
     | some (us, l13) =>
       let d : DateTime := ⟨y, mo, da, h, mi, sec, us⟩
       if l13.isEmpty ∧ d.validB then some d else none)
  | _ => none

/-- A JSON document, as decoded by `json.loads`.  Objects keep their
members in insertion order, matching Python `dict` semantics. -/
inductive Json where
  | null
  | bool (b : Bool)
  | num (n : Int)
  | str (s : String)
  | arr (elems : List Json)
  | obj (members : List (String × Json))

/-- Scalar JSON values (everything the delivery context stores). -/
def Json.isScalar : Json → Bool
  | .null => true
  | .bool _ => true
  | .str _ => true
  | _ => false

/-- Python `dict.get(key)`: the first (and, after `mkDict`, only) binding
of `key`, or `None` when the key is absent.  Calling `.get` on a decoded
value that is not a `dict` raises `AttributeError`. -/
def pyGet (j : Json) (key : String) : Except PyError Json :=
  match j with
  | .obj members => .ok ((List.lookup key members).getD .null)
  | _ => .error (.attributeError "get")

/-- Python's `value == "healthy"` on a decoded JSON value: true exactly
for the string `"healthy"` (equality between a `str` and any other
decoded type is `False` in Python). -/
def statusIsHealthy : Json → Bool
  | .str s => s == "healthy"
  | _ => false

/-- The hexadecimal digit character (lowercase) for `d < 16`. -/
def hexDigitChar (d : Nat) : Char :=
  Char.ofNat (if d < 10 then 48 + d else 87 + d)

/-- Numeric value of a hexadecimal digit character. -/
def hexVal (c : Char) : Option Nat :=
  if '0' ≤ c ∧ c ≤ '9' then some (c.toNat - 48)
  else if 'a' ≤ c ∧ c ≤ 'f' then some (c.toNat - 87)
  else if 'A' ≤ c ∧ c ≤ 'F' then some (c.toNat - 55)
  else none

/-- The four hex digits of `n % 0x10000`, most significant first. -/
def hexDigits4 (n : Nat) : List Char :=
  [hexDigitChar (n / 4096 % 16), hexDigitChar (n / 256 % 16),
    hexDigitChar (n / 16 % 16), hexDigitChar (n % 16)]

/-- Value of four hex digit characters. -/
def hex4 (h1 h2 h3 h4 : Char) : Option Nat :=
  match hexVal h1, hexVal h2, hexVal h3, hexVal h4 with
  | some a, some b, some c, some d => some (((a * 16 + b) * 16 + c) * 16 + d)
  | _, _, _, _ => none

/-- Escape of one character under the default (`ensure_ascii=True`) JSON
encoder: named short escapes, `\u00XX` for other control characters,
printable ASCII verbatim, `\uXXXX` for other BMP characters and a
surrogate pair for astral characters. -/
def escapeChar (c : Char) : List Char :=
  if c = '"' then ['\\', '"']
  else if c = '\\' then ['\\', '\\']
  else if c = '\n' then ['\\', 'n']
  else if c = '\t' then ['\\', 't']
  else if c = '\r' then ['\\', 'r']
  else if c = Char.ofNat 8 then ['\\', 'b']
  else if c = Char.ofNat 12 then ['\\', 'f']
  else if c.toNat < 0x20 then '\\' :: 'u' :: hexDigits4 c.toNat
  else if c.toNat ≤ 0x7e then [c]
  else if c.toNat < 0x10000 then '\\' :: 'u' :: hexDigits4 c.toNat
  else
    '\\' :: 'u' :: hexDigits4 (0xd800 + (c.toNat - 0x10000) / 0x400)
      ++ '\\' :: 'u' :: hexDigits4 (0xdc00 + (c.toNat - 0x10000) % 0x400)

/-- JSON string-body escape of a character sequence. -/
def escapeList : List Char → List Char
  | [] => []
  | c :: cs => escapeChar c ++ escapeList cs

/-- Two spaces of indentation per level, as `json.dumps(..., indent=2)`. -/
def indentChars (lvl : Nat) : List Char := List.replicate (2 * lvl) ' '

mutual

/-- Serialization of one JSON value at nesting level `lvl`, reproducing
the byte-for-byte output of `json.dumps(value, indent=2)`. -/
def dumpVal : Nat → Json → List Char
  | _, .null => ['n', 'u', 'l', 'l']
  | _, .bool true => ['t', 'r', 'u', 'e']
  | _, .bool false => ['f', 'a', 'l', 's', 'e']
  | _, .num n => (toString n).data
  | _, .str s => '"' :: escapeList s.data ++ ['"']
  | _, .arr [] => ['[', ']']
  | lvl, .arr (x :: xs) =>
    '[' :: '\n' :: (dumpItems (lvl + 1) x xs ++ '\n' :: indentChars lvl ++ [']'])
  | _, .obj [] => ['\x7b', '\x7d']
  | lvl, .obj (m :: ms) =>
    '\x7b' :: '\n' :: (dumpMembers (lvl + 1) m ms ++ '\n' :: indentChars lvl ++ ['\x7d'])
termination_by _ j => sizeOf j

/-- Serialization of a nonempty array item list, separator `",\n"`. -/
def dumpItems : Nat → Json → List Json → List Char
  | lvl, x, [] => indentChars lvl ++ dumpVal lvl x
  | lvl, x, y :: ys =>
    indentChars lvl ++ dumpVal lvl x ++ ',' :: '\n' :: dumpItems lvl y ys
termination_by _ x xs => sizeOf x + sizeOf xs

/-- Serialization of a nonempty object member list, key/value separator
`": "`, member separator `",\n"`. -/
def dumpMembers : Nat → (String × Json) → List (String × Json) → List Char
  | lvl, (k, v), [] =>
    indentChars lvl ++ '"' :: escapeList k.data ++ '"' :: ':' :: ' ' :: dumpVal lvl v
  | lvl, (k, v), kv :: ms =>
    indentChars lvl ++ '"' :: escapeList k.data ++ '"' :: ':' :: ' ' :: dumpVal lvl v
      ++ ',' :: '\n' :: dumpMembers lvl kv ms
termination_by _ kv ms => sizeOf kv + sizeOf ms

end

/-- Python's `json.dumps(value, indent=2)`. -/
def jsonDumps (j : Json) : String := String.mk (dumpVal 0 j)

/-- Skips JSON whitespace. -/
def skipWs : List Char → List Char
  | [] => []
  | c :: l => if c = ' ' ∨ c = '\n' ∨ c = '\t' ∨ c = '\r' then skipWs l else c :: l

/-- Prepends a decoded character to a string-scan result. -/
def pushChar (c : Char) : Option (List Char × List Char) → Option (List Char × List Char)
  | some (cs, r) => some (c :: cs, r)
  | none => none

mutual

/-- Scans a JSON string body (after the opening quote) up to its closing
quote, decoding escapes; surrogate pairs are recombined.  Lone surrogate
escapes are rejected (they denote no Unicode scalar value). -/
def scanString : List Char → Option (List Char × List Char)
  | [] => none
  | c :: rest =>
    if c = '"' then some ([], rest)
    else if c = '\\' then scanEscape rest
    else if c.toNat < 0x20 then none
    else pushChar c (scanString rest)
termination_by l => l.length

/-- Decodes one backslash escape and continues the scan. -/
def scanEscape : List Char → Option (List Char × List Char)
  | [] => none
  | e :: rest =>
    if e = '"' then pushChar '"' (scanString rest)
    else if e = '\\' then pushChar '\\' (scanString rest)
    else if e = '/' then pushChar '/' (scanString rest)
    else if e = 'b' then pushChar (Char.ofNat 8) (scanString rest)
    else if e = 'f' then pushChar (Char.ofNat 12) (scanString rest)
    else if e = 'n' then pushChar '\n' (scanString rest)
    else if e = 'r' then pushChar '\r' (scanString rest)
    else if e = 't' then pushChar '\t' (scanString rest)
    else if e = 'u' then scanUnicode rest
    else none
termination_by l => l.length

/-- Decodes a `\uXXXX` escape; a high surrogate requires a following
low-surrogate escape with which it is recombined. -/
def scanUnicode : List Char → Option (List Char × List Char)
  | h1 :: h2 :: h3 :: h4 :: r =>
    match hex4 h1 h2 h3 h4 with
    | none => none
    | some n =>
      if 0xd800 ≤ n ∧ n ≤ 0xdbff then scanLowSurrogate n r
      else if 0xdc00 ≤ n ∧ n ≤ 0xdfff then none
      else pushChar (Char.ofNat n) (scanString r)
  | _ => none
termination_by l => l.length

/-- Decodes the low half of a surrogate pair whose high half had value
`n`, and continues the scan with the recombined character. -/
def scanLowSurrogate (n : Nat) : List Char → Option (List Char × List Char)
  | '\\' :: 'u' :: g1 :: g2 :: g3 :: g4 :: r2 =>
    match hex4 g1 g2 g3 g4 with
    | some m =>
      if 0xdc00 ≤ m ∧ m ≤ 0xdfff then
        pushChar (Char.ofNat (0x10000 + (n - 0xd800) * 0x400 + (m - 0xdc00))) (scanString r2)
      else none
    | none => none
  | _ => none
termination_by l => l.length

end

/-- Digit fold for integer literals. -/
def digitsToNat (ds : List Char) : Nat :=
  ds.foldl (fun a c => a * 10 + (c.toNat - 48)) 0

/-- Scans a JSON integer literal (optional minus, no leading zeros). -/
def scanNumber (l : List Char) : Option (Json × List Char) :=
  let (neg, l2) := match l with
    | '-' :: r => (true, r)
    | _ => (false, l)
  let (ds, rest) := l2.span (·.isDigit)
  if ds.isEmpty then none
  else if 1 < ds.length ∧ ds.head? = some '0' then none
  else
    let n : Int := Int.ofNat (digitsToNat ds)
    some (.num (if neg then -n else n), rest)

/-- Python `dict` insertion: replace in place when the key exists,
append otherwise. -/
def dictInsert (ms : List (String × Json)) (k : String) (v : Json) :
    List (String × Json) :=
  if ms.any (fun kv => kv.1 == k) then
    ms.map (fun kv => if kv.1 == k then (k, v) else kv)
  else ms ++ [(k, v)]

/-- Builds a Python `dict` from parsed members (last binding wins, first
occurrence keeps its position). -/
def mkDict (ps : List (String × Json)) : List (String × Json) :=
  ps.foldl (fun acc kv => dictInsert acc kv.1 kv.2) []

mutual

/-- Recursive-descent JSON value parser.  `fuel` only bounds the nesting
recursion; any document `json.loads` accepts (floats aside) is parsed
when given fuel beyond its nesting depth, which `jsonLoads` supplies. -/
def parseVal : Nat → List Char → Option (Json × List Char)
  | 0, _ => none
  | fuel + 1, l =>
    match skipWs l with
    | 'n' :: 'u' :: 'l' :: 'l' :: r => some (.null, r)
    | 't' :: 'r' :: 'u' :: 'e' :: r => some (.bool true, r)
    | 'f' :: 'a' :: 'l' :: 's' :: 'e' :: r => some (.bool false, r)
    | '"' :: r =>
      match scanString r with
      | some (cs, r2) => some (.str (String.mk cs), r2)
      | none => none
    | '[' :: r =>
      match skipWs r with
      | ']' :: r2 => some (.arr [], r2)
      | r2 =>
        match parseItems fuel r2 with
        | some (vs, r3) => some (.arr vs, r3)
        | none => none
    | '\x7b' :: r =>
      match skipWs r with
      | '\x7d' :: r2 => some (.obj [], r2)
      | r2 =>
        match parseMembers fuel r2 with
        | some (ms, r3) => some (.obj (mkDict ms), r3)
        | none => none
    | l2 => scanNumber l2

/-- Parses the items of a nonempty array up to the closing bracket. -/
def parseItems : Nat → List Char → Option (List Json × List Char)
  | 0, _ => none
  | fuel + 1, l =>
    match parseVal fuel l with
    | none => none
    | some (v, r) =>
      match skipWs r with
      | ',' :: r2 =>
        match parseItems fuel r2 with
        | some (vs, r3) => some (v :: vs, r3)
        | none => none
      | ']' :: r2 => some ([v], r2)
      | _ => none

/-- Parses the members of a nonempty object up to the closing brace. -/
def parseMembers : Nat → List Char → Option (List (String × Json) × List Char)
  | 0, _ => none
  | fuel + 1, l =>
    match skipWs l with
    | '"' :: r =>
      match scanString r with
      | none => none
      | some (kcs, r2) =>
        match skipWs r2 with
        | ':' :: r3 =>
          match parseVal fuel r3 with
          | none => none
          | some (v, r4) =>
            match skipWs r4 with
            | ',' :: r5 =>
              match parseMembers fuel r5 with
              | some (ms, r6) => some ((String.mk kcs, v) :: ms, r6)
              | none => none
            | '\x7d' :: r5 => some ([(String.mk kcs, v)], r5)
            | _ => none
        | _ => none
    | _ => none

end

/-- Python's `json.loads`: decode the document, requiring only
whitespace after it. -/
def jsonLoads (s : String) : Except PyError Json :=
  match parseVal (s.length + 1) s.data with
  | some (j, rest) => if (skipWs rest).isEmpty then .ok j else .error .jsonDecodeError
  | none => .error .jsonDecodeError

mutual

/-- Python `repr` of a JSON-decoded value, as used when formatting nested
containers (string quoting is approximated: Python would switch quote
characters for strings containing `\x27`). -/
def pyRepr : Json → String
  | .null => "None"
  | .bool true => "True"
  | .bool false => "False"
  | .num n => toString n
  | .str s => "\x27" ++ s ++ "\x27"
  | .arr xs => "[" ++ String.intercalate ", " (pyReprList xs) ++ "]"
  | .obj ms => "\x7b" ++ String.intercalate ", " (pyReprMembers ms) ++ "\x7d"
termination_by j => sizeOf j

/-- Item representations of a decoded list. -/
def pyReprList : List Json → List String
  | [] => []
  | x :: xs => pyRepr x :: pyReprList xs
termination_by xs => sizeOf xs

/-- Member representations of a decoded dict. -/
def pyReprMembers : List (String × Json) → List String
  | [] => []
  | (k, v) :: ms => ("\x27" ++ k ++ "\x27: " ++ pyRepr v) :: pyReprMembers ms
termination_by ms => sizeOf ms

end

/-- Python `str()` of a JSON-decoded value, as interpolated by an
f-string: `None`, `True`/`False`, the bare string for `str` values. -/
def pyFormat : Json → String
  | .null => "None"
  | .bool true => "True"
  | .bool false => "False"
  | .num n => toString n
  | .str s => s
  | .arr xs => pyRepr (.arr xs)
  | .obj ms => pyRepr (.obj ms)

/-- Stdout captured from `dag.container().from_("alpine:latest")
.with_exec(args).stdout()`: the stages only ever run `echo`, which prints
its arguments separated by spaces followed by a newline. -/
def containerStdout (args : List String) : String :=
  String.intercalate " " args.tail ++ "\n"

/-- JSON encoding of an `Optional[str]` Python value. -/
def jsonOfOptStr : Option String → Json
  | none => .null
  | some s => .str s

/-- JSON encoding of an `Optional[bool]` Python value. -/
def jsonOfOptBool : Option Bool → Json
  | none => .null
  | some b => .bool b

/-- Python `str()` of an `Optional[str]` value, as interpolated by an
f-string (`None` renders as the four letters `None`). -/
def pyStrOfOptStr : Option String → String
  | none => "None"
  | some s => s

/-- The `delivery_context` dict literal built by `Deliver.deliver`
(deliver.example.py lines 37-44), with `datetime.now().isoformat()`
already rendered into `timestamp`. -/
def delivery_context (timestamp : String) (container_repository helm_repository : Option String)
    (release_candidate : Option Bool) : List (String × Json) :=
  [("timestamp", .str timestamp),
   ("imageReference", .str (pyStrOfOptStr container_repository ++ "/goserv:1.0.0")),
   ("chartReference", .str (pyStrOfOptStr helm_repository ++ "/goserv:0.1.0")),
   ("containerRepository", jsonOfOptStr container_repository),
   ("helmRepository", jsonOfOptStr helm_repository),
   ("releaseCandidate", jsonOfOptBool release_candidate)]

/-- `Deliver.deliver` (deliver.example.py lines 13-53): builds the
delivery context, serializes it with `json.dumps(..., indent=2)` and
returns it as the file `delivery-context.json`.  The wall-clock reading
taken by `datetime.now()` is the explicit argument `now`.  Python
defaults: `container_repository = some "ttl.sh"`,
`helm_repository = some "oci://ttl.sh"`, `build_artifact = none`,
`release_candidate = some false`. -/
def Deliver.deliver (_source : Directory) (container_repository helm_repository : Option String)
    (_build_artifact : Option DaggerFile) (release_candidate : Option Bool)
    (now : DateTime) : DaggerFile :=
  let context_json :=
    jsonDumps (.obj (delivery_context now.isoformat container_repository
      helm_repository release_candidate))
  { name := "delivery-context.json", contents := context_json }

/-- `Deploy.deploy` (deploy.example.py lines 67-111).  The
`deployment_context` dict literal at lines 95-102 reads the name
`image_ref` (line 101: `"imageReference": image_ref`), but no statement
in the function body ever binds `image_ref`, so evaluating the dict
literal raises `NameError` on every invocation and the function never
reaches the file-construction code at lines 107-110. -/
def Deploy.deploy (_source : Directory) (_kubeconfig : Option DaggerFile)
    (_awsconfig : Option Secret) (_helm_repository _container_repository : Option String)
    (_release_candidate : Option Bool) (_now : DateTime) : Except PyError DaggerFile :=
  .error (.nameError "image_ref")

/-- The `validation_context` dict literal built by `Validate.validate`
(validate.example.py lines 154-161), with `datetime.now().isoformat()`
already rendered into `timestamp` and the values extracted from the
optional deployment context passed in. -/
def validation_context (timestamp : String) (release_name endpoint : Json) :
    List (String × Json) :=
  [("timestamp", .str timestamp),
   ("releaseName", release_name),
   ("endpoint", endpoint),
   ("status", .str "healthy"),
   ("healthChecks", .arr [.str "pod-ready", .str "service-available"]),
   ("readinessChecks", .arr [.str "http-200", .str "metrics-available"])]

/-- `Validate.validate` (validate.example.py lines 125-169): extracts
`endpoint` and `releaseName` from the deployment context when one is
given (leaving both `None` otherwise), then emits the validation context
as the file `validation-context.json`. -/
def Validate.validate (_source : Directory) (_release_candidate : Option Bool)
    (deployment_context : Option DaggerFile) (now : DateTime) : Except PyError DaggerFile :=
  match deployment_context with
  | none =>
    .ok { name := "validation-context.json",
          contents := jsonDumps (.obj (validation_context now.isoformat .null .null)) }
  | some f =>
    match jsonLoads f.contents with
    | .error e => .error e
    | .ok dep_context =>
      match pyGet dep_context "endpoint" with
      | .error e => .error e
      | .ok endpoint =>
        match pyGet dep_context "releaseName" with
        | .error e => .error e
        | .ok release_name =>
          .ok { name := "validation-context.json",
                contents := jsonDumps (.obj (validation_context now.isoformat
                  release_name endpoint)) }

/-- The two containers run by the test-execution path of
`Test.integration_test` (test.example.py lines 237-248), and the value
the function returns: the argv lists of both `with_exec` calls, and the
stdout of the second one (the first `output` binding is overwritten). -/
def runIntegrationTests (target_url : Json) : String × List (List String) :=
  let cmd1 := ["echo", "Running integration tests against " ++ pyFormat target_url]
  let _output1 := containerStdout cmd1
  let cmd2 := ["echo", "this is the IntegrationTest function"]
  let output2 := containerStdout cmd2
  (output2, [cmd1, cmd2])

/-- Lines 222-227 of test.example.py: the `target_url` computation of
`Test.integration_test` — `None` when no deployment context is given,
otherwise `json.loads(...)` followed by `.get("endpoint")`. -/
def extractTargetUrl (deployment_context : Option DaggerFile) : Except PyError Json :=
  match deployment_context with
  | none => .ok .null
  | some f =>
    match jsonLoads f.contents with
    | .error e => .error e
    | .ok context => pyGet context "endpoint"

/-- Contents that are not valid JSON or decode to a non-object — the
artifacts the specification calls malformed. -/
def isMalformedJsonDoc (s : String) : Bool :=
  match jsonLoads s with
  | .ok (.obj _) => false
  | _ => true

/-- `Test.integration_test` (test.example.py lines 206-250): derives
`target_url` from the optional deployment context, skips with a sentinel
message when the optional validation context reports a status other than
`"healthy"`, and otherwise runs the two test containers.  The result
pairs the returned string with the argv lists of the containers actually
executed. -/
def Test.integration_test (_source : Directory) (deployment_context : Option DaggerFile)
    (validation_context : Option DaggerFile) :
    Except PyError (String × List (List String)) :=
  match extractTargetUrl deployment_context with
  | .error e => .error e
  | .ok target_url =>
    match validation_context with
    | none => .ok (runIntegrationTests target_url)
    | some f =>
      match jsonLoads f.contents with
      | .error e => .error e
      | .ok val_context =>
        match pyGet val_context "status" with
        | .error e => .error e
        | .ok status =>
          if statusIsHealthy status then .ok (runIntegrationTests target_url)
          else .ok ("Skipping tests: deployment validation failed", [])

/-! ### Decimal digit and timestamp lemmas -/

theorem decDigitChar_facts :
    ∀ d < 10, (decDigitChar d).isDigit = true ∧ (decDigitChar d).toNat = 48 + d := by
  decide

theorem readDigits_padDigits (w : Nat) :
    ∀ (acc n : Nat) (rest : List Char),
      readDigits w acc (padDigits w n ++ rest) = some (acc * 10 ^ w + n % 10 ^ w, rest) := by
  induction w with
  | zero => intro acc n rest; simp [readDigits, padDigits, Nat.mod_one]
  | succ w ih =>
    intro acc n rest
    have hd : n / 10 ^ w % 10 < 10 := Nat.mod_lt _ (by norm_num)
    obtain ⟨h1, h2⟩ := decDigitChar_facts _ hd
    simp only [padDigits, List.cons_append, readDigits, h1, if_true, h2, List.append_eq]
    have h3 : 48 + n / 10 ^ w % 10 - 48 = n / 10 ^ w % 10 := by omega
    rw [h3, ih]
    have h4 : n % (10 ^ w * 10) = n % 10 ^ w + 10 ^ w * (n / 10 ^ w % 10) := Nat.mod_mul
    rw [pow_succ, h4]
    ring_nf

theorem expectChar_cons (c : Char) (l : List Char) : expectChar c (c :: l) = some l := by
  simp [expectChar]

theorem readDigits_padDigits_nil (w acc n : Nat) :
    readDigits w acc (padDigits w n) = some (acc * 10 ^ w + n % 10 ^ w, []) := by
  rw [← List.append_nil (padDigits w n), readDigits_padDigits]

theorem parseIsoTimestamp_isoformat (d : DateTime) (hv : d.Valid) :
    parseIsoTimestamp d.isoformat = some d := by
  obtain ⟨y, mo, da, h, mi, s, us⟩ := d
  have hvb : DateTime.validB ⟨y, mo, da, h, mi, s, us⟩ = true := decide_eq_true hv
  unfold DateTime.Valid at hv
  dsimp only at hv
  obtain ⟨v1, v2, v3, v4, v5, v6, v7, v8, v9, v10⟩ := hv
  have hy : y % 10 ^ 4 = y := Nat.mod_eq_of_lt (by omega)
  have hmo : mo % 10 ^ 2 = mo := Nat.mod_eq_of_lt (by omega)
  have hda : da % 10 ^ 2 = da := Nat.mod_eq_of_lt (by omega)
  have hh : h % 10 ^ 2 = h := Nat.mod_eq_of_lt (by omega)
  have hmi : mi % 10 ^ 2 = mi := Nat.mod_eq_of_lt (by omega)
  have hs : s % 10 ^ 2 = s := Nat.mod_eq_of_lt (by omega)
  unfold DateTime.isoformat parseIsoTimestamp
  dsimp only
  simp only [List.append_assoc, List.cons_append]
  rw [readDigits_padDigits]
  dsimp only
  rw [expectChar_cons]
  dsimp only
  rw [readDigits_padDigits]
  dsimp only
  rw [expectChar_cons]
  dsimp only
  rw [readDigits_padDigits]
  dsimp only
  rw [expectChar_cons]
  dsimp only
  rw [readDigits_padDigits]
  dsimp only
  rw [expectChar_cons]
  dsimp only
  rw [readDigits_padDigits]
  dsimp only
  rw [expectChar_cons]
  dsimp only
  rw [readDigits_padDigits]
  dsimp only
  simp only [Nat.zero_mul, Nat.zero_add, hy, hmo, hda, hh, hmi, hs]
  by_cases hus : us = 0
  · subst hus
    simp only [if_pos rfl]
    simp [hvb]
  · have hus6 : us % 1000000 = us := Nat.mod_eq_of_lt (by omega)
    rw [if_neg hus]
    simp [readDigits_padDigits_nil, hus6, hvb]

/-! ### Helper lemmas about consumption of contexts -/

theorem statusIsHealthy_eq_false {j : Json} (h : j ≠ .str "healthy") :
    statusIsHealthy j = false := by
  cases j <;> simp_all [statusIsHealthy]

theorem jsonLoads_error_eq {s : String} {e : PyError} (h : jsonLoads s = .error e) :
    e = .jsonDecodeError := by
  unfold jsonLoads at h
  split at h
  · split at h
    · exact absurd h (by simp)
    · exact (Except.error.inj h).symm
  · exact (Except.error.inj h).symm

/-! ### Claim theorems -/

/-- C1: the claim states that every invocation of `Deploy.deploy`
completes and emits exactly one deployment context artifact carrying a
creation timestamp.  The code cannot do so: the `deployment_context`
dict literal reads the never-bound name `image_ref`, so every invocation
raises `NameError` and emits nothing. -/
theorem deploy_always_raises_NameError (src : Directory) (kubeconfig : Option DaggerFile)
    (awsconfig : Option Secret) (helm_repository container_repository : Option String)
    (release_candidate : Option Bool) (now : DateTime) :
    Deploy.deploy src kubeconfig awsconfig helm_repository container_repository
      release_candidate now = .error (.nameError "image_ref") := rfl

/-- C5: a stage whose optional upstream context parameter is absent does
not fail: `Validate.validate` proceeds with `endpoint` and `releaseName`
unset (JSON `null`), and `Test.integration_test` proceeds with an unset
target (`None` in the echoed command line) and still runs both test
containers. -/
theorem missing_optional_contexts_degrade_to_defaults (src : Directory)
    (release_candidate : Option Bool) (now : DateTime) :
    Validate.validate src release_candidate none now =
      .ok { name := "validation-context.json",
            contents := jsonDumps (.obj (validation_context now.isoformat .null .null)) }
    ∧ List.lookup "endpoint" (validation_context now.isoformat .null .null) = some .null
    ∧ List.lookup "releaseName" (validation_context now.isoformat .null .null) = some .null
    ∧ Test.integration_test src none none =
        .ok ("this is the IntegrationTest function\n",
          [["echo", "Running integration tests against None"],
           ["echo", "this is the IntegrationTest function"]]) :=
  ⟨rfl, rfl, rfl, rfl⟩

/-- C10: `Test.integration_test` computes `target_url` from the
deployment context before it looks at the validation context, so a
deployment context that fails to parse aborts the stage with the parse
error even when the validation context is unhealthy; in particular the
skip message is unreachable in that situation. -/
theorem integration_test_parses_deployment_before_status (src : Directory)
    (f vf : DaggerFile) (e : PyError)
    (h : extractTargetUrl (some f) = .error e) :
    Test.integration_test src (some f) (some vf) = .error e
    ∧ Test.integration_test src (some f) (some vf)
        ≠ .ok ("Skipping tests: deployment validation failed", []) := by
  constructor
  · simp [Test.integration_test, h]
  · simp [Test.integration_test, h]

/-- C10 witness: a deployment context that is not JSON together with an
unhealthy validation context produce the parse error, not the skip
message. -/
theorem integration_test_parses_deployment_before_status_witness :
    Test.integration_test ⟨⟩ (some ⟨"deployment-context.json", "oops"⟩)
      (some ⟨"validation-context.json", "\x7b\"status\": \"unhealthy\"\x7d"⟩)
      = .error .jsonDecodeError
    ∧ Test.integration_test ⟨⟩ (some ⟨"deployment-context.json", "oops"⟩)
        (some ⟨"validation-context.json", "\x7b\"status\": \"unhealthy\"\x7d"⟩)
        ≠ .ok ("Skipping tests: deployment validation failed", []) :=
  integration_test_parses_deployment_before_status ⟨⟩ _ _ _ rfl

/-- C2: whenever the validation context decodes to an object whose
`status` key holds any value other than the string `"healthy"` — the
absent-key case decodes to `None` and is covered — `Test.integration_test`
returns the literal skip message and executes no test container (the
recorded container log is empty), provided the deployment context lookup
itself succeeded (its failure is claim C10). -/
theorem integration_test_skips_when_status_not_healthy (src : Directory)
    (dc : Option DaggerFile) (vf : DaggerFile) (m : List (String × Json))
    (hdc : ∃ u, extractTargetUrl dc = Except.ok u)
    (hvm : jsonLoads vf.contents = .ok (.obj m))
    (hst : (List.lookup "status" m).getD .null ≠ Json.str "healthy") :
    Test.integration_test src dc (some vf)
      = .ok ("Skipping tests: deployment validation failed", []) := by
  obtain ⟨u, hu⟩ := hdc
  have hfalse := statusIsHealthy_eq_false hst
  simp [Test.integration_test, hu, hvm, pyGet, hfalse]

/-- C3: for every deployment context that decodes to a JSON object, the
validation context built by `Validate.validate` copies the exact values
of the deployment context's `endpoint` and `releaseName` keys (absent
keys propagate as `null`, which is what `dict.get` returns), sets
`status` to `"healthy"`, and carries the fixed non-empty `healthChecks`
and `readinessChecks` sequences. -/
theorem validate_propagates_endpoint_and_release (src : Directory)
    (release_candidate : Option Bool) (f : DaggerFile)
    (m : List (String × Json)) (now : DateTime)
    (hm : jsonLoads f.contents = .ok (.obj m)) :
    Validate.validate src release_candidate (some f) now =
      .ok { name := "validation-context.json",
            contents := jsonDumps (.obj (validation_context now.isoformat
              ((List.lookup "releaseName" m).getD .null)
              ((List.lookup "endpoint" m).getD .null))) }
    ∧ List.lookup "endpoint" (validation_context now.isoformat
          ((List.lookup "releaseName" m).getD .null) ((List.lookup "endpoint" m).getD .null))
        = some ((List.lookup "endpoint" m).getD .null)
    ∧ List.lookup "releaseName" (validation_context now.isoformat
          ((List.lookup "releaseName" m).getD .null) ((List.lookup "endpoint" m).getD .null))
        = some ((List.lookup "releaseName" m).getD .null)
    ∧ List.lookup "status" (validation_context now.isoformat
          ((List.lookup "releaseName" m).getD .null) ((List.lookup "endpoint" m).getD .null))
        = some (.str "healthy")
    ∧ List.lookup "healthChecks" (validation_context now.isoformat
          ((List.lookup "releaseName" m).getD .null) ((List.lookup "endpoint" m).getD .null))
        = some (.arr [.str "pod-ready", .str "service-available"])
    ∧ List.lookup "readinessChecks" (validation_context now.isoformat
          ((List.lookup "releaseName" m).getD .null) ((List.lookup "endpoint" m).getD .null))
        = some (.arr [.str "http-200", .str "metrics-available"])
    ∧ ([Json.str "pod-ready", Json.str "service-available"] : List Json) ≠ []
    ∧ ([Json.str "http-200", Json.str "metrics-available"] : List Json) ≠ [] := by
  refine ⟨?_, rfl, rfl, rfl, rfl, rfl, by simp, by simp⟩
  simp [Validate.validate, hm, pyGet]

/-- C9: whatever the inputs, a successful `Validate.validate` run always
reports `status` `"healthy"` together with the fixed check sequences
`["pod-ready", "service-available"]` and `["http-200",
"metrics-available"]`; no input can produce an unhealthy status (and a
failing run produces no context at all). -/
theorem validate_status_always_healthy (src : Directory) (release_candidate : Option Bool)
    (dc : Option DaggerFile) (now : DateTime) (f : DaggerFile)
    (h : Validate.validate src release_candidate dc now = .ok f) :
    ∃ rn ep, f.contents = jsonDumps (.obj (validation_context now.isoformat rn ep))
      ∧ List.lookup "status" (validation_context now.isoformat rn ep)
          = some (.str "healthy")
      ∧ List.lookup "healthChecks" (validation_context now.isoformat rn ep)
          = some (.arr [.str "pod-ready", .str "service-available"])
      ∧ List.lookup "readinessChecks" (validation_context now.isoformat rn ep)
          = some (.arr [.str "http-200", .str "metrics-available"]) := by
  cases dc with
  | none =>
    have hf := Except.ok.inj h
    exact ⟨.null, .null, by rw [← hf], rfl, rfl, rfl⟩
  | some df =>
    rcases hj : jsonLoads df.contents with e | j
    · rw [show Validate.validate src release_candidate (some df) now
          = .error e from by simp [Validate.validate, hj]] at h
      exact absurd h (by simp)
    · cases j with
      | obj mem =>
        rw [show Validate.validate src release_candidate (some df) now
            = .ok { name := "validation-context.json",
                    contents := jsonDumps (.obj (validation_context now.isoformat
                      ((List.lookup "releaseName" mem).getD .null)
                      ((List.lookup "endpoint" mem).getD .null))) }
            from by simp [Validate.validate, hj, pyGet]] at h
        have hf := Except.ok.inj h
        exact ⟨_, _, by rw [← hf], rfl, rfl, rfl⟩
      | null => simp [Validate.validate, hj, pyGet] at h
      | bool b => simp [Validate.validate, hj, pyGet] at h
      | num n => simp [Validate.validate, hj, pyGet] at h
      | str s => simp [Validate.validate, hj, pyGet] at h
      | arr elems => simp [Validate.validate, hj, pyGet] at h

/-- C9 witness: a run with no deployment context succeeds and its context
carries the healthy status and the fixed check lists. -/
theorem validate_status_always_healthy_witness :
    Validate.validate ⟨⟩ none none ⟨2026, 10, 12, 9, 30, 0, 0⟩ =
      .ok { name := "validation-context.json",
            contents := jsonDumps (.obj (validation_context
              (DateTime.isoformat ⟨2026, 10, 12, 9, 30, 0, 0⟩) .null .null)) }
    ∧ ∃ rn ep,
        ({ name := "validation-context.json",
           contents := jsonDumps (.obj (validation_context
             (DateTime.isoformat ⟨2026, 10, 12, 9, 30, 0, 0⟩) .null .null)) } :
            DaggerFile).contents
          = jsonDumps (.obj (validation_context
              (DateTime.isoformat ⟨2026, 10, 12, 9, 30, 0, 0⟩) rn ep))
        ∧ List.lookup "status" (validation_context
            (DateTime.isoformat ⟨2026, 10, 12, 9, 30, 0, 0⟩) rn ep)
            = some (.str "healthy")
        ∧ List.lookup "healthChecks" (validation_context
            (DateTime.isoformat ⟨2026, 10, 12, 9, 30, 0, 0⟩) rn ep)
            = some (.arr [.str "pod-ready", .str "service-available"])
        ∧ List.lookup "readinessChecks" (validation_context
            (DateTime.isoformat ⟨2026, 10, 12, 9, 30, 0, 0⟩) rn ep)
            = some (.arr [.str "http-200", .str "metrics-available"]) :=
  ⟨rfl, validate_status_always_healthy ⟨⟩ none none ⟨2026, 10, 12, 9, 30, 0, 0⟩ _ rfl⟩

/-- C4: an upstream artifact whose contents are not valid JSON, or decode
to something other than a JSON object, makes every stage that consumes it
(`Validate.validate` on its deployment context, `Test.integration_test`
on either of its contexts) fail with a `MalformedContext`-class error;
the failing stage returns `Except.error`, so no partial output context is
produced. -/
theorem malformed_context_fails_consuming_stages (src : Directory)
    (release_candidate : Option Bool) (now : DateTime) (f : DaggerFile)
    (vc : Option DaggerFile)
    (h : isMalformedJsonDoc f.contents = true) :
    (∃ e1, Validate.validate src release_candidate (some f) now = .error e1
        ∧ e1.isMalformedContext = true)
    ∧ (∃ e2, Test.integration_test src (some f) vc = .error e2
        ∧ e2.isMalformedContext = true)
    ∧ (∃ e3, Test.integration_test src none (some f) = .error e3
        ∧ e3.isMalformedContext = true) := by
  rcases hj : jsonLoads f.contents with e | j
  · have he : e = .jsonDecodeError := jsonLoads_error_eq hj
    subst he
    refine ⟨⟨.jsonDecodeError, ?_, rfl⟩, ⟨.jsonDecodeError, ?_, rfl⟩,
      ⟨.jsonDecodeError, ?_, rfl⟩⟩
    · simp [Validate.validate, hj]
    · simp [Test.integration_test, extractTargetUrl, hj]
    · simp [Test.integration_test, extractTargetUrl, hj, pyGet]
  · cases j with
    | obj mem => rw [isMalformedJsonDoc, hj] at h; simp at h
    | null =>
      refine ⟨⟨.attributeError "get", ?_, rfl⟩, ⟨.attributeError "get", ?_, rfl⟩,
        ⟨.attributeError "get", ?_, rfl⟩⟩
      · simp [Validate.validate, hj, pyGet]
      · simp [Test.integration_test, extractTargetUrl, hj, pyGet]
      · simp [Test.integration_test, extractTargetUrl, hj, pyGet]
    | bool b =>
      refine ⟨⟨.attributeError "get", ?_, rfl⟩, ⟨.attributeError "get", ?_, rfl⟩,
        ⟨.attributeError "get", ?_, rfl⟩⟩
      · simp [Validate.validate, hj, pyGet]
      · simp [Test.integration_test, extractTargetUrl, hj, pyGet]
      · simp [Test.integration_test, extractTargetUrl, hj, pyGet]
    | num n =>
      refine ⟨⟨.attributeError "get", ?_, rfl⟩, ⟨.attributeError "get", ?_, rfl⟩,
        ⟨.attributeError "get", ?_, rfl⟩⟩
      · simp [Validate.validate, hj, pyGet]
      · simp [Test.integration_test, extractTargetUrl, hj, pyGet]
      · simp [Test.integration_test, extractTargetUrl, hj, pyGet]
    | str s =>
      refine ⟨⟨.attributeError "get", ?_, rfl⟩, ⟨.attributeError "get", ?_, rfl⟩,
        ⟨.attributeError "get", ?_, rfl⟩⟩
      · simp [Validate.validate, hj, pyGet]
      · simp [Test.integration_test, extractTargetUrl, hj, pyGet]
      · simp [Test.integration_test, extractTargetUrl, hj, pyGet]
    | arr elems =>
      refine ⟨⟨.attributeError "get", ?_, rfl⟩, ⟨.attributeError "get", ?_, rfl⟩,
        ⟨.attributeError "get", ?_, rfl⟩⟩
      · simp [Validate.validate, hj, pyGet]
      · simp [Test.integration_test, extractTargetUrl, hj, pyGet]
      · simp [Test.integration_test, extractTargetUrl, hj, pyGet]

/-- C4 witness: an artifact holding the non-JSON text `not json` makes
both consuming stages fail with a `MalformedContext`-class error. -/
theorem malformed_context_fails_consuming_stages_witness :
    isMalformedJsonDoc "not json" = true
    ∧ ((∃ e1, Validate.validate ⟨⟩ (some false)
          (some ⟨"deployment-context.json", "not json"⟩) ⟨2026, 10, 12, 9, 30, 0, 0⟩
          = .error e1 ∧ e1.isMalformedContext = true)
      ∧ (∃ e2, Test.integration_test ⟨⟩ (some ⟨"deployment-context.json", "not json"⟩) none
          = .error e2 ∧ e2.isMalformedContext = true)
      ∧ (∃ e3, Test.integration_test ⟨⟩ none (some ⟨"deployment-context.json", "not json"⟩)
          = .error e3 ∧ e3.isMalformedContext = true)) :=
  ⟨rfl, malformed_context_fails_consuming_stages ⟨⟩ (some false)
    ⟨2026, 10, 12, 9, 30, 0, 0⟩ ⟨"deployment-context.json", "not json"⟩ none rfl⟩

/-- C6 divergence: the claim (and the function's own docstring, which
says `release_candidate` "appends -rc to version tag") requires the
delivery context's version tags to carry a pre-release suffix when
`release_candidate` is true.  The code builds `imageReference` and
`chartReference` identically for both flag values — the flag is only
recorded verbatim in `releaseCandidate` — and at the default
repositories the tags are exactly `ttl.sh/goserv:1.0.0` and
`oci://ttl.sh/goserv:0.1.0`, which do not end in `-rc`. -/
theorem deliver_tags_ignore_release_candidate :
    (∀ (src : Directory) (cr hr : Option String) (ba : Option DaggerFile)
        (rc : Option Bool) (now : DateTime),
      Deliver.deliver src cr hr ba rc now =
        { name := "delivery-context.json",
          contents := jsonDumps (.obj (delivery_context now.isoformat cr hr rc)) })
    ∧ (∀ ts cr hr,
        List.lookup "imageReference" (delivery_context ts cr hr (some true))
          = List.lookup "imageReference" (delivery_context ts cr hr (some false))
        ∧ List.lookup "chartReference" (delivery_context ts cr hr (some true))
          = List.lookup "chartReference" (delivery_context ts cr hr (some false)))
    ∧ List.lookup "imageReference"
        (delivery_context "2026-10-12T09:30:00" (some "ttl.sh") (some "oci://ttl.sh")
          (some true)) = some (.str "ttl.sh/goserv:1.0.0")
    ∧ List.lookup "chartReference"
        (delivery_context "2026-10-12T09:30:00" (some "ttl.sh") (some "oci://ttl.sh")
          (some true)) = some (.str "oci://ttl.sh/goserv:0.1.0")
    ∧ List.isSuffixOf "-rc".data "ttl.sh/goserv:1.0.0".data = false
    ∧ List.isSuffixOf "-rc".data "oci://ttl.sh/goserv:0.1.0".data = false :=
  ⟨fun _ _ _ _ _ _ => rfl, fun _ _ _ => ⟨rfl, rfl⟩, rfl, rfl, by decide, by decide⟩

/-- C8: two successive context productions — a `Deliver.deliver` call at
clock reading `d1` followed by another `Deliver.deliver` or a
`Validate.validate` call at clock reading `d2` — stamp their contexts
with `isoformat` of the respective readings; both stamps parse back as
valid ISO-8601 timestamps denoting exactly those readings, and under the
assumption that the wall clock does not step backwards between the calls
(`d1.key ≤ d2.key`) the denoted instants are non-decreasing. -/
theorem successive_timestamps_nondecreasing_valid_iso
    (src src2 : Directory) (cr hr : Option String) (ba : Option DaggerFile)
    (rc rc2 : Option Bool) (d1 d2 : DateTime)
    (h1 : d1.Valid) (h2 : d2.Valid) (hle : d1.key ≤ d2.key) :
    Deliver.deliver src cr hr ba rc d1 =
      { name := "delivery-context.json",
        contents := jsonDumps (.obj (delivery_context d1.isoformat cr hr rc)) }
    ∧ List.lookup "timestamp" (delivery_context d1.isoformat cr hr rc)
        = some (.str d1.isoformat)
    ∧ List.lookup "timestamp" (delivery_context d2.isoformat cr hr rc2)
        = some (.str d2.isoformat)
    ∧ Validate.validate src2 rc2 none d2 =
        .ok { name := "validation-context.json",
              contents := jsonDumps (.obj (validation_context d2.isoformat .null .null)) }
    ∧ List.lookup "timestamp" (validation_context d2.isoformat .null .null)
        = some (.str d2.isoformat)
    ∧ parseIsoTimestamp d1.isoformat = some d1
    ∧ parseIsoTimestamp d2.isoformat = some d2
    ∧ d1.key ≤ d2.key :=
  ⟨rfl, rfl, rfl, rfl, rfl,
    parseIsoTimestamp_isoformat d1 h1, parseIsoTimestamp_isoformat d2 h2, hle⟩

/-- C8 witness: two concrete readings one second apart. -/
theorem successive_timestamps_nondecreasing_valid_iso_witness :
    DateTime.Valid ⟨2026, 10, 12, 9, 30, 0, 123456⟩
    ∧ DateTime.Valid ⟨2026, 10, 12, 9, 30, 1, 0⟩
    ∧ DateTime.key ⟨2026, 10, 12, 9, 30, 0, 123456⟩ ≤ DateTime.key ⟨2026, 10, 12, 9, 30, 1, 0⟩
    ∧ (Deliver.deliver ⟨⟩ (some "ttl.sh") (some "oci://ttl.sh") none (some false)
          ⟨2026, 10, 12, 9, 30, 0, 123456⟩ =
        { name := "delivery-context.json",
          contents := jsonDumps (.obj (delivery_context
            (DateTime.isoformat ⟨2026, 10, 12, 9, 30, 0, 123456⟩)
            (some "ttl.sh") (some "oci://ttl.sh") (some false))) }
      ∧ List.lookup "timestamp" (delivery_context
            (DateTime.isoformat ⟨2026, 10, 12, 9, 30, 0, 123456⟩)
            (some "ttl.sh") (some "oci://ttl.sh") (some false))
          = some (.str (DateTime.isoformat ⟨2026, 10, 12, 9, 30, 0, 123456⟩))
      ∧ List.lookup "timestamp" (delivery_context
            (DateTime.isoformat ⟨2026, 10, 12, 9, 30, 1, 0⟩)
            (some "ttl.sh") (some "oci://ttl.sh") (some false))
          = some (.str (DateTime.isoformat ⟨2026, 10, 12, 9, 30, 1, 0⟩))
      ∧ Validate.validate ⟨⟩ (some false) none ⟨2026, 10, 12, 9, 30, 1, 0⟩ =
          .ok { name := "validation-context.json",
                contents := jsonDumps (.obj (validation_context
                  (DateTime.isoformat ⟨2026, 10, 12, 9, 30, 1, 0⟩) .null .null)) }
      ∧ List.lookup "timestamp" (validation_context
            (DateTime.isoformat ⟨2026, 10, 12, 9, 30, 1, 0⟩) .null .null)
          = some (.str (DateTime.isoformat ⟨2026, 10, 12, 9, 30, 1, 0⟩))
      ∧ parseIsoTimestamp (DateTime.isoformat ⟨2026, 10, 12, 9, 30, 0, 123456⟩)
          = some ⟨2026, 10, 12, 9, 30, 0, 123456⟩
      ∧ parseIsoTimestamp (DateTime.isoformat ⟨2026, 10, 12, 9, 30, 1, 0⟩)
          = some ⟨2026, 10, 12, 9, 30, 1, 0⟩
      ∧ DateTime.key ⟨2026, 10, 12, 9, 30, 0, 123456⟩
          ≤ DateTime.key ⟨2026, 10, 12, 9, 30, 1, 0⟩) :=
  ⟨by decide, by decide, by decide,
    successive_timestamps_nondecreasing_valid_iso ⟨⟩ ⟨⟩ (some "ttl.sh")
      (some "oci://ttl.sh") none (some false) (some false)
      ⟨2026, 10, 12, 9, 30, 0, 123456⟩ ⟨2026, 10, 12, 9, 30, 1, 0⟩
      (by decide) (by decide) (by decide)⟩

/-! ### Round-trip of the JSON encoder and decoder (delivery context) -/

theorem hexVal_hexDigitChar : ∀ d < 16, hexVal (hexDigitChar d) = some d := by
  decide

theorem hex4_hexDigits4 {n : Nat} (hn : n < 65536) :
    hex4 (hexDigitChar (n / 4096 % 16)) (hexDigitChar (n / 256 % 16))
      (hexDigitChar (n / 16 % 16)) (hexDigitChar (n % 16)) = some n := by
  have h1 := hexVal_hexDigitChar (n / 4096 % 16) (Nat.mod_lt _ (by norm_num))
  have h2 := hexVal_hexDigitChar (n / 256 % 16) (Nat.mod_lt _ (by norm_num))
  have h3 := hexVal_hexDigitChar (n / 16 % 16) (Nat.mod_lt _ (by norm_num))
  have h4 := hexVal_hexDigitChar (n % 16) (Nat.mod_lt _ (by norm_num))
  simp only [hex4, h1, h2, h3, h4, Option.some.injEq]
  omega

theorem char_toNat_valid (c : Char) :
    c.toNat < 0xd800 ∨ (0xe000 ≤ c.toNat ∧ c.toNat < 0x110000) := by
  have h := c.valid
  rcases h with h | h
  · left; exact h
  · right; exact h

theorem scanString_escapeList (cs : List Char) (rest : List Char) :
    scanString (escapeList cs ++ '"' :: rest) = some (cs, rest) := by
  induction cs generalizing rest with
  | nil => simp [escapeList, scanString]
  | cons c cs ih =>
    have hval := char_toNat_valid c
    simp only [escapeList, List.append_assoc]
    by_cases h1 : c = '"'
    · subst h1; simp [escapeChar, scanString, scanEscape, pushChar, ih]
    by_cases h2 : c = '\\'
    · subst h2; simp [escapeChar, scanString, scanEscape, pushChar, ih]
    by_cases h3 : c = '\n'
    · subst h3; simp [escapeChar, scanString, scanEscape, pushChar, ih]
    by_cases h4 : c = '\t'
    · subst h4; simp [escapeChar, scanString, scanEscape, pushChar, ih]
    by_cases h5 : c = '\r'
    · subst h5; simp [escapeChar, scanString, scanEscape, pushChar, ih]
    by_cases h6 : c = Char.ofNat 8
    · subst h6; simp [escapeChar, scanString, scanEscape, pushChar, ih]
    by_cases h7 : c = Char.ofNat 12
    · subst h7; simp [escapeChar, scanString, scanEscape, pushChar, ih]
    by_cases h8 : c.toNat < 0x20
    · -- generic control escape: \u00XX
      have hlt : c.toNat < 65536 := by omega
      have hs1 : ¬(0xd800 ≤ c.toNat ∧ c.toNat ≤ 0xdbff) := by omega
      have hs2 : ¬(0xdc00 ≤ c.toNat ∧ c.toNat ≤ 0xdfff) := by omega
      simp only [escapeChar, if_neg h1, if_neg h2, if_neg h3, if_neg h4, if_neg h5,
        if_neg h6, if_neg h7, if_pos h8, hexDigits4, List.cons_append, List.nil_append]
      simp [scanString, scanEscape, scanUnicode, hex4_hexDigits4 hlt, hs1, hs2,
        ih, pushChar, Char.ofNat_toNat]
    by_cases h9 : c.toNat ≤ 0x7e
    · -- printable ASCII, emitted verbatim
      simp only [escapeChar, if_neg h1, if_neg h2, if_neg h3, if_neg h4, if_neg h5,
        if_neg h6, if_neg h7, if_neg h8, if_pos h9, List.cons_append, List.nil_append]
      simp [scanString, h1, h2, h8, pushChar, ih]
    by_cases h10 : c.toNat < 0x10000
    · -- BMP character: \uXXXX
      have hs1 : ¬(0xd800 ≤ c.toNat ∧ c.toNat ≤ 0xdbff) := by omega
      have hs2 : ¬(0xdc00 ≤ c.toNat ∧ c.toNat ≤ 0xdfff) := by omega
      simp only [escapeChar, if_neg h1, if_neg h2, if_neg h3, if_neg h4, if_neg h5,
        if_neg h6, if_neg h7, if_neg h8, if_neg h9, if_pos h10, hexDigits4,
        List.cons_append, List.nil_append]
      simp [scanString, scanEscape, scanUnicode, hex4_hexDigits4 h10, hs1, hs2,
        ih, pushChar, Char.ofNat_toNat]
    · -- astral character: surrogate pair
      have hq : (c.toNat - 0x10000) / 0x400 ≤ 0x3ff := by omega
      have hr : (c.toNat - 0x10000) % 0x400 ≤ 0x3ff := by
        have := Nat.mod_lt (c.toNat - 0x10000) (show 0 < 0x400 by norm_num)
        omega
      have hhi : 0xd800 + (c.toNat - 0x10000) / 0x400 < 65536 := by omega
      have hlo : 0xdc00 + (c.toNat - 0x10000) % 0x400 < 65536 := by omega
      have hs1 : 0xd800 ≤ 0xd800 + (c.toNat - 0x10000) / 0x400
          ∧ 0xd800 + (c.toNat - 0x10000) / 0x400 ≤ 0xdbff := by omega
      have hs2 : 0xdc00 ≤ 0xdc00 + (c.toNat - 0x10000) % 0x400
          ∧ 0xdc00 + (c.toNat - 0x10000) % 0x400 ≤ 0xdfff := by omega
      have harith : 0x10000 + (0xd800 + (c.toNat - 0x10000) / 0x400 - 0xd800) * 0x400
          + (0xdc00 + (c.toNat - 0x10000) % 0x400 - 0xdc00) = c.toNat := by omega
      have harith2 : 0x10000 + (c.toNat - 0x10000) / 0x400 * 0x400
          + (c.toNat - 0x10000) % 0x400 = c.toNat := by omega
      simp only [escapeChar, if_neg h1, if_neg h2, if_neg h3, if_neg h4, if_neg h5,
        if_neg h6, if_neg h7, if_neg h8, if_neg h9, if_neg h10, hexDigits4,
        List.cons_append, List.nil_append, List.append_assoc]
      simp [scanString, scanEscape, scanUnicode, scanLowSurrogate,
        hex4_hexDigits4 hhi, hex4_hexDigits4 hlo, hs1, hs2, harith, harith2,
        ih, pushChar, Char.ofNat_toNat]

theorem string_mk_data (s : String) : String.mk s.data = s := rfl

theorem skipWs_idem (l : List Char) : skipWs (skipWs l) = skipWs l := by
  induction l with
  | nil => rfl
  | cons c l ih =>
    by_cases h : c = ' ' ∨ c = '\n' ∨ c = '\t' ∨ c = '\r'
    · simp [skipWs, h, ih]
    · have e : skipWs (c :: l) = c :: l := by simp [skipWs, h]
      simp [e]

theorem parseVal_skipWs (fuel : Nat) (l : List Char) :
    parseVal fuel (skipWs l) = parseVal fuel l := by
  cases fuel with
  | zero => rfl
  | succ f => simp only [parseVal, skipWs_idem]

theorem parseMembers_skipWs (fuel : Nat) (l : List Char) :
    parseMembers fuel (skipWs l) = parseMembers fuel l := by
  cases fuel with
  | zero => rfl
  | succ f => simp only [parseMembers, skipWs_idem]

theorem parseVal_ws_cons (fuel : Nat) (c : Char)
    (hc : c = ' ' ∨ c = '\n' ∨ c = '\t' ∨ c = '\r') (l : List Char) :
    parseVal fuel (c :: l) = parseVal fuel l := by
  rw [← parseVal_skipWs fuel (c :: l),
    show skipWs (c :: l) = skipWs l from by simp [skipWs, hc], parseVal_skipWs]

theorem parseMembers_ws_cons (fuel : Nat) (c : Char)
    (hc : c = ' ' ∨ c = '\n' ∨ c = '\t' ∨ c = '\r') (l : List Char) :
    parseMembers fuel (c :: l) = parseMembers fuel l := by
  rw [← parseMembers_skipWs fuel (c :: l),
    show skipWs (c :: l) = skipWs l from by simp [skipWs, hc], parseMembers_skipWs]

theorem skipWs_cons (c : Char) (l : List Char)
    (h : ¬(c = ' ' ∨ c = '\n' ∨ c = '\t' ∨ c = '\r')) : skipWs (c :: l) = c :: l := by
  simp [skipWs, h]

theorem parseVal_dump_scalar (fuel lvl : Nat) (v : Json)
    (hv : v.isScalar = true) (hf : 1 ≤ fuel) (rest : List Char) :
    parseVal fuel (dumpVal lvl v ++ rest) = some (v, rest) := by
  cases fuel with
  | zero => omega
  | succ f =>
    cases v with
    | null => simp [dumpVal, parseVal, skipWs]
    | bool b => cases b <;> simp [dumpVal, parseVal, skipWs]
    | str s =>
      simp only [dumpVal, List.cons_append, List.append_assoc, List.singleton_append]
      simp [parseVal, skipWs, scanString_escapeList, string_mk_data]
    | num n => exact absurd hv (by simp [Json.isScalar])
    | arr elems => exact absurd hv (by simp [Json.isScalar])
    | obj members => exact absurd hv (by simp [Json.isScalar])

theorem parseMembers_dump (ms : List (String × Json)) :
    ∀ (k : String) (v : Json) (fuel : Nat) (rest : List Char),
      v.isScalar = true → (∀ p ∈ ms, p.2.isScalar = true) →
      ms.length + 2 ≤ fuel →
      parseMembers fuel (dumpMembers 1 (k, v) ms ++ '\n' :: '\x7d' :: rest)
        = some ((k, v) :: ms, rest) := by
  induction ms with
  | nil =>
    intro k v fuel rest hv _ hf
    cases fuel with
    | zero => omega
    | succ f =>
      have hf1 : 1 ≤ f := by omega
      simp only [dumpMembers, indentChars, List.replicate, List.cons_append,
        List.nil_append, List.append_assoc]
      rw [parseMembers_ws_cons _ _ (by simp), parseMembers_ws_cons _ _ (by simp)]
      simp only [parseMembers]
      simp [skipWs_cons, skipWs, scanString_escapeList, parseVal_ws_cons,
        parseVal_dump_scalar f 1 v hv hf1, string_mk_data]
  | cons kv2 ms ih =>
    obtain ⟨k2, v2⟩ := kv2
    intro k v fuel rest hv hall hf
    cases fuel with
    | zero => simp at hf
    | succ f =>
      have hf1 : 1 ≤ f := by omega
      have hv2 : v2.isScalar = true := hall (k2, v2) (by simp)
      have hall2 : ∀ p ∈ ms, p.2.isScalar = true := fun p hp => hall p (by simp [hp])
      have hfuel2 : ms.length + 2 ≤ f := by simp at hf; omega
      have ihh := ih k2 v2 f rest hv2 hall2 hfuel2
      simp only [dumpMembers, indentChars, List.replicate, List.cons_append,
        List.nil_append, List.append_assoc]
      rw [parseMembers_ws_cons _ _ (by simp), parseMembers_ws_cons _ _ (by simp)]
      simp only [parseMembers]
      simp only [dumpMembers, indentChars, List.replicate, List.cons_append,
        List.nil_append, List.append_assoc] at ihh
      simp [skipWs_cons, skipWs, scanString_escapeList, parseVal_ws_cons,
        parseVal_dump_scalar f 1 v hv hf1, parseMembers_ws_cons, ihh, string_mk_data]

theorem parseVal_dump_obj (kv : String × Json) (ms : List (String × Json)) (fuel : Nat)
    (hall : ∀ p ∈ kv :: ms, p.2.isScalar = true) (hf : ms.length + 3 ≤ fuel)
    (rest : List Char) :
    parseVal fuel (dumpVal 0 (.obj (kv :: ms)) ++ rest)
      = some (.obj (mkDict (kv :: ms)), rest) := by
  obtain ⟨k, v⟩ := kv
  cases fuel with
  | zero => omega
  | succ f =>
    have hv : v.isScalar = true := hall (k, v) (by simp)
    have hall2 : ∀ p ∈ ms, p.2.isScalar = true := fun p hp => hall p (by simp [hp])
    have hfm : ms.length + 2 ≤ f := by omega
    have hpm := parseMembers_dump ms k v f rest hv hall2 hfm
    have hshape : ∃ t, dumpMembers 1 (k, v) ms = ' ' :: ' ' :: '"' :: (escapeList k.data ++ t) := by
      cases ms with
      | nil =>
        exact ⟨'"' :: ':' :: ' ' :: dumpVal 1 v,
          by simp [dumpMembers, indentChars, List.replicate, List.append_assoc]⟩
      | cons kv2 ms2 =>
        exact ⟨'"' :: ':' :: ' ' :: (dumpVal 1 v ++ ',' :: '\n' :: dumpMembers 1 kv2 ms2),
          by simp [dumpMembers, indentChars, List.replicate, List.append_assoc]⟩
    obtain ⟨t, ht⟩ := hshape
    rw [ht] at hpm
    simp only [List.cons_append, List.append_assoc] at hpm
    rw [parseMembers_ws_cons _ _ (by simp), parseMembers_ws_cons _ _ (by simp)] at hpm
    simp only [dumpVal, indentChars, List.replicate, List.cons_append, List.nil_append,
      List.append_assoc, ht]
    simp only [parseVal]
    rw [skipWs_cons _ _ (by decide)]
    have hsw : skipWs ('\n' :: ' ' :: ' ' :: '"'
          :: (escapeList k.data ++ (t ++ '\n' :: '\x7d' :: rest)))
        = '"' :: (escapeList k.data ++ (t ++ '\n' :: '\x7d' :: rest)) := by
      simp [skipWs]
    simp [hsw, hpm]

theorem dumpMembers_length_ge (ms : List (String × Json)) :
    ∀ kv : String × Json, ms.length + 1 ≤ (dumpMembers 1 kv ms).length := by
  induction ms with
  | nil =>
    intro kv
    obtain ⟨k, v⟩ := kv
    simp [dumpMembers, indentChars, List.replicate]
  | cons kv2 ms ih =>
    intro kv
    obtain ⟨k, v⟩ := kv
    have := ih kv2
    simp [dumpMembers, indentChars, List.replicate] at this ⊢
    omega

theorem jsonLoads_jsonDumps_obj (kv : String × Json) (ms : List (String × Json))
    (hall : ∀ p ∈ kv :: ms, p.2.isScalar = true) :
    jsonLoads (jsonDumps (.obj (kv :: ms))) = .ok (.obj (mkDict (kv :: ms))) := by
  have hdm := dumpMembers_length_ge ms kv
  have hlen : ms.length + 3 ≤ (dumpVal 0 (Json.obj (kv :: ms))).length + 1 := by
    obtain ⟨k, v⟩ := kv
    simp [dumpVal, indentChars, List.replicate] at hdm ⊢
    omega
  unfold jsonLoads jsonDumps
  have hpo := parseVal_dump_obj kv ms
    ((dumpVal 0 (Json.obj (kv :: ms))).length + 1) hall (by omega) []
  rw [List.append_nil] at hpo
  have hl : (String.mk (dumpVal 0 (Json.obj (kv :: ms)))).length
      = (dumpVal 0 (Json.obj (kv :: ms))).length := rfl
  have hdata : (String.mk (dumpVal 0 (Json.obj (kv :: ms)))).data
      = dumpVal 0 (Json.obj (kv :: ms)) := rfl
  rw [hl, hdata, hpo]
  simp [skipWs]

/-- C7: for all `container_repository`, `helm_repository` and
`release_candidate` values, the file produced by `Deliver.deliver` is
named `delivery-context.json` and parsing its JSON contents recovers a
mapping whose `containerRepository`, `helmRepository` and
`releaseCandidate` entries equal the inputs unchanged, plus an added
`timestamp` key (round-trip fidelity of produce/consume). -/
theorem deliver_context_roundtrip (src : Directory) (cr hr : Option String)
    (ba : Option DaggerFile) (rc : Option Bool) (now : DateTime) :
    (Deliver.deliver src cr hr ba rc now).name = "delivery-context.json"
    ∧ jsonLoads (Deliver.deliver src cr hr ba rc now).contents
        = .ok (.obj (delivery_context now.isoformat cr hr rc))
    ∧ List.lookup "containerRepository" (delivery_context now.isoformat cr hr rc)
        = some (jsonOfOptStr cr)
    ∧ List.lookup "helmRepository" (delivery_context now.isoformat cr hr rc)
        = some (jsonOfOptStr hr)
    ∧ List.lookup "releaseCandidate" (delivery_context now.isoformat cr hr rc)
        = some (jsonOfOptBool rc)
    ∧ (List.lookup "timestamp" (delivery_context now.isoformat cr hr rc)).isSome
        = true := by
  have hall : ∀ p ∈ ("timestamp", Json.str now.isoformat) ::
      [("imageReference", Json.str (pyStrOfOptStr cr ++ "/goserv:1.0.0")),
       ("chartReference", Json.str (pyStrOfOptStr hr ++ "/goserv:0.1.0")),
       ("containerRepository", jsonOfOptStr cr),
       ("helmRepository", jsonOfOptStr hr),
       ("releaseCandidate", jsonOfOptBool rc)], p.2.isScalar = true := by
    intro p hp
    simp only [List.mem_cons, List.mem_singleton, List.not_mem_nil, or_false] at hp
    rcases hp with h | h | h | h | h | h <;> subst h
    · rfl
    · rfl
    · rfl
    · cases cr <;> rfl
    · cases hr <;> rfl
    · cases rc <;> rfl
  exact ⟨rfl, jsonLoads_jsonDumps_obj _ _ hall, rfl, rfl, rfl, rfl⟩

/-- C2 witness: a validation context with `status` `"unhealthy"` and no
deployment context yields the skip message and an empty container log. -/
theorem integration_test_skips_when_status_not_healthy_witness :
    (∃ u, extractTargetUrl none = Except.ok u)
    ∧ jsonLoads (jsonDumps (.obj [("status", Json.str "unhealthy")]))
        = .ok (.obj [("status", Json.str "unhealthy")])
    ∧ ((List.lookup "status" [("status", Json.str "unhealthy")]).getD .null
        ≠ Json.str "healthy")
    ∧ Test.integration_test ⟨⟩ none
        (some ⟨"validation-context.json", jsonDumps (.obj [("status", Json.str "unhealthy")])⟩)
        = .ok ("Skipping tests: deployment validation failed", []) :=
  ⟨⟨.null, rfl⟩,
    jsonLoads_jsonDumps_obj ("status", Json.str "unhealthy") [] (by simp [Json.isScalar]),
    by simp,
    integration_test_skips_when_status_not_healthy ⟨⟩ none
      ⟨"validation-context.json", jsonDumps (.obj [("status", Json.str "unhealthy")])⟩
      [("status", Json.str "unhealthy")] ⟨.null, rfl⟩
      (jsonLoads_jsonDumps_obj ("status", Json.str "unhealthy") [] (by simp [Json.isScalar]))
      (by simp)⟩

/-- C3 witness: the spec's propagation scenario, with `endpoint`
`"http://svc:8080"` and `releaseName` `"goserv"` carried by a deployment
context artifact produced by the serializer. -/
theorem validate_propagates_endpoint_and_release_witness :
    jsonLoads (jsonDumps (.obj [("endpoint", Json.str "http://svc:8080"),
        ("releaseName", Json.str "goserv")]))
      = .ok (.obj [("endpoint", Json.str "http://svc:8080"),
        ("releaseName", Json.str "goserv")])
    ∧ (Validate.validate ⟨⟩ (some false)
        (some ⟨"deployment-context.json",
          jsonDumps (.obj [("endpoint", Json.str "http://svc:8080"),
            ("releaseName", Json.str "goserv")])⟩)
        ⟨2026, 10, 12, 9, 30, 0, 0⟩ =
        .ok { name := "validation-context.json",
              contents := jsonDumps (.obj (validation_context
                (DateTime.isoformat ⟨2026, 10, 12, 9, 30, 0, 0⟩)
                (Json.str "goserv") (Json.str "http://svc:8080"))) }
      ∧ List.lookup "endpoint" (validation_context
            (DateTime.isoformat ⟨2026, 10, 12, 9, 30, 0, 0⟩)
            (Json.str "goserv") (Json.str "http://svc:8080"))
          = some (Json.str "http://svc:8080")
      ∧ List.lookup "releaseName" (validation_context
            (DateTime.isoformat ⟨2026, 10, 12, 9, 30, 0, 0⟩)
            (Json.str "goserv") (Json.str "http://svc:8080"))
          = some (Json.str "goserv")
      ∧ List.lookup "status" (validation_context
            (DateTime.isoformat ⟨2026, 10, 12, 9, 30, 0, 0⟩)
            (Json.str "goserv") (Json.str "http://svc:8080"))
          = some (.str "healthy")
      ∧ List.lookup "healthChecks" (validation_context
            (DateTime.isoformat ⟨2026, 10, 12, 9, 30, 0, 0⟩)
            (Json.str "goserv") (Json.str "http://svc:8080"))
          = some (.arr [.str "pod-ready", .str "service-available"])
      ∧ List.lookup "readinessChecks" (validation_context
            (DateTime.isoformat ⟨2026, 10, 12, 9, 30, 0, 0⟩)
            (Json.str "goserv") (Json.str "http://svc:8080"))
          = some (.arr [.str "http-200", .str "metrics-available"])
      ∧ ([Json.str "pod-ready", Json.str "service-available"] : List Json) ≠ []
      ∧ ([Json.str "http-200", Json.str "metrics-available"] : List Json) ≠ []) :=
  ⟨jsonLoads_jsonDumps_obj ("endpoint", Json.str "http://svc:8080")
      [("releaseName", Json.str "goserv")] (by simp [Json.isScalar]),
    validate_propagates_endpoint_and_release ⟨⟩ (some false)
      ⟨"deployment-context.json",
        jsonDumps (.obj [("endpoint", Json.str "http://svc:8080"),
          ("releaseName", Json.str "goserv")])⟩
      [("endpoint", Json.str "http://svc:8080"), ("releaseName", Json.str "goserv")]
      ⟨2026, 10, 12, 9, 30, 0, 0⟩
      (jsonLoads_jsonDumps_obj ("endpoint", Json.str "http://svc:8080")
        [("releaseName", Json.str "goserv")] (by simp [Json.isScalar]))⟩
